import Mathlib

/-!
Shallow embedding of the voice-controlled volleyball stats tracker
(`app.py`, `database.py`).  Python strings are Lean `String`s.  The pandas
DataFrame that holds the stats sheet is modelled as an explicit row-label
list, a column-label list and a cell valuation; the relational store of
`database.py` is modelled as explicit lists of player rows and stat rows.
Every definition is executable and follows the source line by line.
-/

namespace VolleyballStats

/-- Python `str.lower`, applied character by character (the inputs of
interest are ASCII, where `Char.toLower` and Python agree). -/
def lowerStr (s : String) : String := ⟨s.data.map Char.toLower⟩

/-- Helper for the substring test: does `needle` occur contiguously in the
character list? -/
def substrAux (needle : List Char) : List Char → Bool
  | [] => needle.isEmpty
  | c :: t => needle.isPrefixOf (c :: t) || substrAux needle t

/-- Python `needle in hay` on strings: contiguous-substring test. -/
def strContains (hay needle : String) : Bool := substrAux needle.data hay.data

/-- Helper for `pyWords`; the accumulator holds the current word reversed. -/
def pyWordsAux (cur : List Char) : List Char → List (List Char)
  | [] => if cur.isEmpty then [] else [cur.reverse]
  | c :: t =>
    if c.isWhitespace then
      if cur.isEmpty then pyWordsAux [] t else cur.reverse :: pyWordsAux [] t
    else pyWordsAux (c :: cur) t

/-- Python `s.split()` with no separator argument: whitespace-delimited
words with empty strings discarded.  The `strip()` the source applies first
is redundant under this semantics. -/
def pyWords (s : String) : List String := (pyWordsAux [] s.data).map fun w => ⟨w⟩

/-- The 13 fixed skill column labels (`VOLLEYBALL_SKILLS`, `app.py` lines 16-21). -/
def VOLLEYBALL_SKILLS : List String :=
  ["Serve Attempt", "Serve Ace", "Serve Error",
   "Pass Zero", "Pass One", "Pass Two", "Pass Three",
   "Spike Attempt", "Kill", "Spike Error",
   "Block", "Assist", "Ball handling Error"]

/-- The in-memory stats sheet (`st.session_state.stats_df`): a pandas
DataFrame with player names as the row index, skill labels as columns, and
a count in every cell. -/
structure Ledger where
  rows : List String
  cols : List String
  count : String → String → Nat

/-- Membership of a (player, skill) cell in the sheet: the pair of
`player_name in df.index` and `skill in df.columns` checks. -/
def Ledger.hasCell (L : Ledger) (p s : String) : Bool :=
  L.rows.contains p && L.cols.contains s

/-- The list of all (player, skill) cells of the sheet, row-major. -/
def Ledger.cells (L : Ledger) : List (String × String) :=
  L.rows.flatMap fun p => L.cols.map fun s => (p, s)

/-- Fresh all-zero sheet for a player list (`create_stats_dataframe`,
`app.py` lines 42-50). -/
def create_stats_dataframe (players : List String) : Ledger :=
  { rows := players, cols := VOLLEYBALL_SKILLS, count := fun _ _ => 0 }

/-- The pandas cell update `df.loc[player_name, skill] += 1`
(`app.py` line 95). -/
def incrementCell (L : Ledger) (p s : String) : Ledger :=
  { L with
    count := fun p' s' =>
      if p' == p && s' == s then L.count p' s' + 1 else L.count p' s' }

/-- The slice of `st.session_state` the command path touches
(`app.py` lines 24-40). -/
structure AppState where
  players : List String
  stats : Ledger
  last_command : String
  command_history : List String
  current_team_id : Option Nat

/-- The per-vocabulary-entry test of `handle_voice_command`:
`entry.lower() in command.lower()` (`app.py` lines 74-75 and 85). -/
def matchesCommand (command entry : String) : Bool :=
  strContains (lowerStr command) (lowerStr entry)

/-- Bookkeeping done for every accepted (nonempty string) command
(`app.py` lines 57-62): record it as last command and push it onto the
history, truncated to the 10 most recent. -/
def logCommand (st : AppState) (command : String) : AppState :=
  { st with
    last_command := command,
    command_history := (command :: st.command_history).take 10 }

/-- The command handler `handle_voice_command` (`app.py` lines 52-110),
restricted to its effect on the in-memory session state.  The best-effort
database write it also attempts (lines 98-107) catches its own failures
and never feeds back into the session state; the durable side is modelled
separately by `save_current_stats` and the button handlers below. -/
def handle_voice_command (st : AppState) (command : String) : AppState :=
  if command == "" then st
  else
    let st1 := logCommand st command
    if (pyWords command).length < 2 then st1
    else
      match st1.players.find? (matchesCommand command) with
      | none => st1
      | some player_name =>
        match VOLLEYBALL_SKILLS.find? (matchesCommand command) with
        | none => st1
        | some skill =>
          if st1.stats.rows.contains player_name && st1.stats.cols.contains skill then
            { st1 with stats := incrementCell st1.stats player_name skill }
          else st1

/-- The resolution part of `handle_voice_command` in isolation (the
Command Resolver of the specification): empty-input rejection, the
two-word minimum, then first player match and first skill match. -/
def resolveCommand (players : List String) (command : String) :
    Option (String × String) :=
  if command == "" then none
  else if (pyWords command).length < 2 then none
  else
    match players.find? (matchesCommand command) with
    | none => none
    | some p =>
      match VOLLEYBALL_SKILLS.find? (matchesCommand command) with
      | none => none
      | some s => some (p, s)

/-- The `Add Stat from Dropdowns` button handler (`app.py` lines 307-312):
build the command as the selected player name, a space, and the selected
skill label, and feed it through `handle_voice_command`. -/
def addStatFromDropdowns (st : AppState) (player_name skill : String) : AppState :=
  if player_name == "" || skill == "" then st
  else handle_voice_command st (player_name ++ " " ++ skill)

/-- A row of the `players` table (`database.py` lines 30-43). -/
structure DBPlayer where
  id : Nat
  name : String
  team_id : Nat

/-- A row of the `stats` table (`database.py` lines 45-59); the `id` and
timestamp columns play no role in the modelled behaviour. -/
structure StatRow where
  player_id : Nat
  skill_name : String
  count : Nat

/-- The durable store: the two tables the stats path reads and writes. -/
structure Store where
  players : List DBPlayer
  stats : List StatRow

/-- One iteration of the inner save loop (`database.py` lines 188-214):
an UPDATE of every stat row matching (player, skill) to `c`, and an INSERT
of a fresh row with count `c` when no row matched. -/
def upsertStat (stats : List StatRow) (pid : Nat) (skill : String) (c : Nat) :
    List StatRow :=
  if stats.any fun r => r.player_id == pid && r.skill_name == skill then
    stats.map fun r =>
      if r.player_id == pid && r.skill_name == skill then { r with count := c } else r
  else stats ++ [{ player_id := pid, skill_name := skill, count := c }]

/-- The bulk save `save_current_stats(team_id, stats_df)` (`database.py`
lines 174-221).  A store failure anywhere inside the transaction is caught
and rolled back, leaving the store as it was; `fails` selects that branch.
The name-to-id dictionary is built by a comprehension in which a later
duplicate name overwrites an earlier one, hence the `getLast?`. -/
def save_current_stats (team_id : Nat) (stats_df : Ledger) (store : Store)
    (fails : Bool) : Store :=
  if fails then store
  else
    let team_players := store.players.filter fun p => p.team_id == team_id
    let new_stats := stats_df.rows.foldl
      (fun acc pname =>
        match (team_players.filter fun p => p.name == pname).getLast? with
        | none => acc
        | some p =>
          stats_df.cols.foldl
            (fun acc2 sk => upsertStat acc2 p.id sk (stats_df.count pname sk)) acc)
      store.stats
    { store with stats := new_stats }

/-- List deduplication keeping first occurrences, for the column unions of
`get_all_stats_for_team`. -/
def dedupKeep (l : List String) : List String :=
  l.foldl (fun acc x => if acc.contains x then acc else acc ++ [x]) []

/-- The load query `get_all_stats_for_team` (`database.py` lines 132-165):
rows are the team's player names; columns are the skill names appearing in
the team's stat rows, extended by every distinct skill name in the whole
stats table (lines 161-163); a cell holds the last stat row written for
that player name and skill.  A cell of a column present only through other
rows is NaN in pandas and is modelled as 0; no modelled behaviour reads
such a cell. -/
def get_all_stats_for_team (team_id : Nat) (store : Store) : Ledger :=
  let team_players := store.players.filter fun p => p.team_id == team_id
  let pids := team_players.map fun p => p.id
  let all_stats := store.stats.filter fun r => pids.contains r.player_id
  let base_cols := dedupKeep (all_stats.map fun r => r.skill_name)
  let table_skills := dedupKeep (store.stats.map fun r => r.skill_name)
  { rows := team_players.map fun p => p.name,
    cols := base_cols ++ table_skills.filter fun sk => !(base_cols.contains sk),
    count := fun pname sk =>
      match (all_stats.filter fun r =>
          (team_players.any fun p => p.id == r.player_id && p.name == pname)
            && r.skill_name == sk).getLast? with
      | none => 0
      | some r => r.count }

/-- The `Load Team` branch of `load_existing_team` (`app.py` lines
131-144): adopt the team id and roster, rebuild the sheet from the store,
and backfill each of the 13 skills missing from the loaded columns with an
all-zero column (`df[skill] = 0`). -/
def load_team (st : AppState) (store : Store) (team_id : Nat) : AppState :=
  let loaded := get_all_stats_for_team team_id store
  let missing := VOLLEYBALL_SKILLS.filter fun sk => !(loaded.cols.contains sk)
  { st with
    current_team_id := some team_id,
    players := (store.players.filter fun p => p.team_id == team_id).map fun p => p.name,
    stats :=
      { rows := loaded.rows,
        cols := loaded.cols ++ missing,
        count := fun pname sk =>
          if missing.contains sk then 0 else loaded.count pname sk } }

/-- The `Save Stats` button handler (`app.py` lines 224-233): with a team
id, attempt the bulk save — an exception is caught and shown as a
non-fatal error message; without one, only a warning is shown.  The
session state is passed through untouched in every branch, exactly as the
handler never assigns to `st.session_state`. -/
def saveStatsButton (st : AppState) (store : Store) (fails : Bool) :
    AppState × Store :=
  match st.current_team_id with
  | some tid => (st, save_current_stats tid st.stats store fails)
  | none => (st, store)

/-- The `Reset Stats` button handler (`app.py` lines 236-251): always
rebuild the in-memory sheet fresh from the current roster, then
best-effort save it when a team id exists. -/
def resetStatsButton (st : AppState) (store : Store) (fails : Bool) :
    AppState × Store :=
  let st1 := { st with stats := create_stats_dataframe st.players }
  match st1.current_team_id with
  | some tid => (st1, save_current_stats tid st1.stats store fails)
  | none => (st1, store)

/-- The state produced by the `Start Tracking` form (`app.py` lines
186-189 on database success, 202-204 in the in-memory fallback): the
entered roster together with a fresh all-zero sheet. -/
def startTracking (st : AppState) (team_id : Option Nat) (players : List String) :
    AppState :=
  { st with
    current_team_id := team_id,
    players := players,
    stats := create_stats_dataframe players }

/-! Basic field lemmas about the state operations. -/

@[simp] lemma logCommand_players (st : AppState) (c : String) :
    (logCommand st c).players = st.players := rfl

@[simp] lemma logCommand_stats (st : AppState) (c : String) :
    (logCommand st c).stats = st.stats := rfl

@[simp] lemma logCommand_last (st : AppState) (c : String) :
    (logCommand st c).last_command = c := rfl

@[simp] lemma logCommand_history (st : AppState) (c : String) :
    (logCommand st c).command_history = (c :: st.command_history).take 10 := rfl

@[simp] lemma logCommand_team (st : AppState) (c : String) :
    (logCommand st c).current_team_id = st.current_team_id := rfl

@[simp] lemma incrementCell_rows (L : Ledger) (p s : String) :
    (incrementCell L p s).rows = L.rows := rfl

@[simp] lemma incrementCell_cols (L : Ledger) (p s : String) :
    (incrementCell L p s).cols = L.cols := rfl

lemma incrementCell_count_self (L : Ledger) (p s : String) :
    (incrementCell L p s).count p s = L.count p s + 1 := by
  simp [incrementCell]

lemma incrementCell_count_other (L : Ledger) (p s p' s' : String)
    (h : ¬(p' = p ∧ s' = s)) :
    (incrementCell L p s).count p' s' = L.count p' s' := by
  simp only [incrementCell]
  split
  · next hc =>
      rw [Bool.and_eq_true, beq_iff_eq, beq_iff_eq] at hc
      exact absurd hc h
  · rfl

/-- An empty command is rejected before any session-state write. -/
lemma handle_voice_command_empty (st : AppState) :
    handle_voice_command st "" = st := rfl

/-- Characterization of `handle_voice_command` on a nonempty command in
terms of the extracted resolver `resolveCommand`. -/
lemma handle_voice_command_of_ne (st : AppState) (cmd : String) (h : cmd ≠ "") :
    handle_voice_command st cmd =
      match resolveCommand st.players cmd with
      | none => logCommand st cmd
      | some (p, s) =>
        if st.stats.rows.contains p && st.stats.cols.contains s then
          { logCommand st cmd with stats := incrementCell st.stats p s }
        else logCommand st cmd := by
  have hb : (cmd == "") = false := by
    simpa using h
  unfold handle_voice_command resolveCommand
  rw [hb]
  simp only [Bool.false_eq_true, if_false]
  by_cases hw : (pyWords cmd).length < 2
  · simp [hw]
  · simp only [hw, if_false]
    cases hfp : st.players.find? (matchesCommand cmd) with
    | none => simp [hfp]
    | some p =>
      cases hfs : VOLLEYBALL_SKILLS.find? (matchesCommand cmd) with
      | none => simp [hfp, hfs]
      | some s => simp [hfp, hfs, logCommand]

/-! Invariants of `handle_voice_command`: the roster, the sheet's cell
set and the team id are never touched by a command. -/

lemma handle_voice_command_players (st : AppState) (cmd : String) :
    (handle_voice_command st cmd).players = st.players := by
  by_cases h : cmd = ""
  · subst h; rfl
  · rw [handle_voice_command_of_ne st cmd h]
    cases resolveCommand st.players cmd with
    | none => rfl
    | some ps =>
      obtain ⟨p, s⟩ := ps
      dsimp only
      split <;> rfl

lemma handle_voice_command_rows (st : AppState) (cmd : String) :
    (handle_voice_command st cmd).stats.rows = st.stats.rows := by
  by_cases h : cmd = ""
  · subst h; rfl
  · rw [handle_voice_command_of_ne st cmd h]
    cases resolveCommand st.players cmd with
    | none => rfl
    | some ps =>
      obtain ⟨p, s⟩ := ps
      dsimp only
      split <;> rfl

lemma handle_voice_command_cols (st : AppState) (cmd : String) :
    (handle_voice_command st cmd).stats.cols = st.stats.cols := by
  by_cases h : cmd = ""
  · subst h; rfl
  · rw [handle_voice_command_of_ne st cmd h]
    cases resolveCommand st.players cmd with
    | none => rfl
    | some ps =>
      obtain ⟨p, s⟩ := ps
      dsimp only
      split <;> rfl

/-- Every nonempty command, matched or not, leaves the history equal to
the new command consed onto the old history, truncated to 10. -/
lemma handle_voice_command_history (st : AppState) (cmd : String) (h : cmd ≠ "") :
    (handle_voice_command st cmd).command_history =
      (cmd :: st.command_history).take 10 := by
  rw [handle_voice_command_of_ne st cmd h]
  cases resolveCommand st.players cmd with
  | none => rfl
  | some ps =>
    obtain ⟨p, s⟩ := ps
    dsimp only
    split <;> rfl

/-! Relating `handle_voice_command` to the resolver's verdict. -/

lemma resolveCommand_empty (players : List String) :
    resolveCommand players "" = none := rfl

lemma handle_stats_of_resolve_none (st : AppState) (cmd : String)
    (h : resolveCommand st.players cmd = none) :
    (handle_voice_command st cmd).stats = st.stats := by
  by_cases hc : cmd = ""
  · subst hc; rfl
  · rw [handle_voice_command_of_ne st cmd hc, h]
    rfl

lemma handle_stats_of_resolve_some (st : AppState) (cmd p s : String)
    (h : resolveCommand st.players cmd = some (p, s))
    (hp : st.stats.rows.contains p = true)
    (hs : st.stats.cols.contains s = true) :
    (handle_voice_command st cmd).stats = incrementCell st.stats p s := by
  have hc : cmd ≠ "" := by
    intro he
    rw [he, resolveCommand_empty] at h
    exact Option.noConfusion h
  have hp' : p ∈ st.stats.rows := by simpa using hp
  have hs' : s ∈ st.stats.cols := by simpa using hs
  rw [handle_voice_command_of_ne st cmd hc, h]
  simp [hp', hs']

/-- First-match extraction: a vocabulary with a matching entry yields a
`find?` hit that itself matches and belongs to the vocabulary. -/
lemma find?_of_exists {α : Type} (p : α → Bool) (l : List α)
    (h : ∃ x ∈ l, p x = true) :
    ∃ y, l.find? p = some y ∧ p y = true ∧ y ∈ l := by
  have hsome : (l.find? p).isSome = true := List.find?_isSome.mpr h
  obtain ⟨y, hy⟩ := Option.isSome_iff_exists.mp hsome
  exact ⟨y, hy, List.find?_some hy, List.mem_of_find?_eq_some hy⟩

/-! Concrete session states used to instantiate the claims. -/

/-- Session state with the one-player roster ["John"] and a fresh sheet. -/
def exJohn : AppState :=
  { players := ["John"],
    stats := create_stats_dataframe ["John"],
    last_command := "",
    command_history := [],
    current_team_id := none }

/-- Session state with roster ["Ann", "Joanne"]: the first name is a
substring of a command built from the second. -/
def exAnnJoanne : AppState :=
  { players := ["Ann", "Joanne"],
    stats := create_stats_dataframe ["Ann", "Joanne"],
    last_command := "",
    command_history := [],
    current_team_id := none }

/-- C1 fails as stated: the single-word command "joblock" contains the
player name "Jo" and the skill label "Block" as case-insensitive
substrings, yet resolution returns no match — the two-word minimum of
`handle_voice_command` (app.py line 68) rejects it. -/
theorem C1_counterexample :
    "Jo" ∈ (["Jo"] : List String) ∧
    matchesCommand "joblock" "Jo" = true ∧
    "Block" ∈ VOLLEYBALL_SKILLS ∧
    matchesCommand "joblock" "Block" = true ∧
    resolveCommand ["Jo"] "joblock" = none := by decide

/-- C1 (amended): for every command of at least two whitespace-separated
words that contains some known player name and some known skill label as
case-insensitive substrings, resolution succeeds, returning the first
matching player and the first matching skill, and the matched sheet cell,
when present, is incremented by 1; a command of fewer than two words is
rejected even when it contains both substrings. -/
theorem C1_resolution (st : AppState) (cmd : String)
    (hw : 2 ≤ (pyWords cmd).length)
    (hp : ∃ p ∈ st.players, matchesCommand cmd p = true)
    (hs : ∃ s ∈ VOLLEYBALL_SKILLS, matchesCommand cmd s = true) :
    ∃ p s, resolveCommand st.players cmd = some (p, s) ∧
      st.players.find? (matchesCommand cmd) = some p ∧
      VOLLEYBALL_SKILLS.find? (matchesCommand cmd) = some s ∧
      (st.stats.rows.contains p = true → st.stats.cols.contains s = true →
        (handle_voice_command st cmd).stats.count p s = st.stats.count p s + 1) := by
  have hne : cmd ≠ "" := by
    intro he
    rw [he] at hw
    exact absurd hw (by decide)
  have hb : (cmd == "") = false := by simpa using hne
  obtain ⟨p, hfp, hpm, hpmem⟩ := find?_of_exists (matchesCommand cmd) st.players hp
  obtain ⟨s, hfs, hsm, hsmem⟩ := find?_of_exists (matchesCommand cmd) VOLLEYBALL_SKILLS hs
  have hres : resolveCommand st.players cmd = some (p, s) := by
    simp only [resolveCommand, hb, Bool.false_eq_true, if_false]
    rw [if_neg (by omega), hfp, hfs]
  refine ⟨p, s, hres, hfp, hfs, fun hrp hrs => ?_⟩
  rw [handle_stats_of_resolve_some st cmd p s hres hrp hrs,
    incrementCell_count_self]

/-- Witness for C1 at the roster ["John"] and the command "john kill". -/
theorem C1_witness :
    resolveCommand exJohn.players "john kill" = some ("John", "Kill") ∧
    (handle_voice_command exJohn "john kill").stats.count "John" "Kill"
      = exJohn.stats.count "John" "Kill" + 1 := by
  obtain ⟨p, s, hres, hfp, hfs, hinc⟩ :=
    C1_resolution exJohn "john kill" (by decide)
      ⟨"John", by decide, by decide⟩ ⟨"Kill", by decide, by decide⟩
  have hp : p = "John" := by
    have hj : (some p : Option String) = some "John" := by rw [← hfp]; decide
    exact Option.some.inj hj
  have hs' : s = "Kill" := by
    have hk : (some s : Option String) = some "Kill" := by rw [← hfs]; decide
    exact Option.some.inj hk
  subst hp
  subst hs'
  exact ⟨hres, hinc (by decide) (by decide)⟩

/-- C2 fails as stated: with roster ["John"], the command "johnny block"
does resolve — both sides of the substring check are lowercased first
(app.py lines 74-75), and "john" is a substring of "johnny". -/
theorem C2_counterexample :
    resolveCommand ["John"] "johnny block" ≠ none := by decide

/-- C2 (amended): for the command "johnny block" with roster ["John"],
resolution returns ("John", "Block"): the check lowercases both the
player name and the command before the substring test (substring
direction player-name-in-command), and "john" occurs in "johnny". -/
theorem C2_resolution :
    resolveCommand ["John"] "johnny block" = some ("John", "Block") := by decide

/-- C4: a command the resolver rejects leaves the in-memory sheet — every
cell of it — unchanged; only history bookkeeping happens. -/
theorem C4_no_match_no_ledger_change (st : AppState) (cmd : String)
    (h : resolveCommand st.players cmd = none) :
    (handle_voice_command st cmd).stats = st.stats ∧
    ∀ p s, (handle_voice_command st cmd).stats.count p s = st.stats.count p s := by
  have hst := handle_stats_of_resolve_none st cmd h
  exact ⟨hst, fun p s => by rw [hst]⟩

/-- Witness for C4 at the roster ["John"] and the unmatched command
"hello world". -/
theorem C4_witness :
    (handle_voice_command exJohn "hello world").stats = exJohn.stats ∧
    (handle_voice_command exJohn "hello world").stats.count "John" "Kill"
      = exJohn.stats.count "John" "Kill" :=
  ⟨(C4_no_match_no_ledger_change exJohn "hello world" (by decide)).1,
    (C4_no_match_no_ledger_change exJohn "hello world" (by decide)).2 "John" "Kill"⟩

/-- C5: a resolved command whose cell exists increments exactly that cell
by 1 and no other cell, and submitting the same command twice adds exactly
2 to that cell (no de-duplication), again touching no other cell. -/
theorem C5_increment_exactly_one (st : AppState) (cmd p s : String)
    (h : resolveCommand st.players cmd = some (p, s))
    (hp : st.stats.rows.contains p = true)
    (hs : st.stats.cols.contains s = true) :
    (handle_voice_command st cmd).stats.count p s = st.stats.count p s + 1 ∧
    (∀ p' s', ¬(p' = p ∧ s' = s) →
      (handle_voice_command st cmd).stats.count p' s' = st.stats.count p' s') ∧
    (handle_voice_command (handle_voice_command st cmd) cmd).stats.count p s
      = st.stats.count p s + 2 ∧
    (∀ p' s', ¬(p' = p ∧ s' = s) →
      (handle_voice_command (handle_voice_command st cmd) cmd).stats.count p' s'
        = st.stats.count p' s') := by
  have h1 : (handle_voice_command st cmd).stats = incrementCell st.stats p s :=
    handle_stats_of_resolve_some st cmd p s h hp hs
  have hres1 : resolveCommand (handle_voice_command st cmd).players cmd = some (p, s) := by
    rw [handle_voice_command_players]; exact h
  have hrp1 : (handle_voice_command st cmd).stats.rows.contains p = true := by
    rw [handle_voice_command_rows]; exact hp
  have hrs1 : (handle_voice_command st cmd).stats.cols.contains s = true := by
    rw [handle_voice_command_cols]; exact hs
  have h2 : (handle_voice_command (handle_voice_command st cmd) cmd).stats
      = incrementCell (handle_voice_command st cmd).stats p s :=
    handle_stats_of_resolve_some (handle_voice_command st cmd) cmd p s hres1 hrp1 hrs1
  refine ⟨?_, ?_, ?_, ?_⟩
  · rw [h1, incrementCell_count_self]
  · intro p' s' hne
    rw [h1, incrementCell_count_other _ _ _ _ _ hne]
  · rw [h2, incrementCell_count_self, h1, incrementCell_count_self]
  · intro p' s' hne
    rw [h2, incrementCell_count_other _ _ _ _ _ hne, h1,
      incrementCell_count_other _ _ _ _ _ hne]

/-- Witness for C5: "john kill" submitted twice against a fresh sheet for
["John"] yields count 0 + 2 at ("John", "Kill"). -/
theorem C5_witness :
    (handle_voice_command (handle_voice_command exJohn "john kill") "john kill").stats.count
        "John" "Kill" = exJohn.stats.count "John" "Kill" + 2 :=
  (C5_increment_exactly_one exJohn "john kill" "John" "Kill"
    (by decide) (by decide) (by decide)).2.2.1

/-- C10: on the roster ["Ann", "Joanne"], the dropdown path for the
selection ("Joanne", "Kill") builds the command "Joanne Kill", which
resolves to the earlier-listed player "Ann" — whose name is a
case-insensitive substring of the built command — so the cell
("Ann", "Kill") is incremented and the selected ("Joanne", "Kill") cell
is not. -/
theorem C10_dropdown_mismatch :
    resolveCommand exAnnJoanne.players ("Joanne" ++ " " ++ "Kill") = some ("Ann", "Kill") ∧
    (addStatFromDropdowns exAnnJoanne "Joanne" "Kill").stats.count "Ann" "Kill"
      = exAnnJoanne.stats.count "Ann" "Kill" + 1 ∧
    (addStatFromDropdowns exAnnJoanne "Joanne" "Kill").stats.count "Joanne" "Kill"
      = exAnnJoanne.stats.count "Joanne" "Kill" := by decide

/-- C3: when several vocabulary entries match, resolution returns the
first match in stored order, not the longest: a player preceded only by
non-matching names is returned whatever matches follow it in the roster,
and the skill returned is the `find?` result over the enumeration in
declared order. -/
theorem C3_first_match_wins (pre rest : List String) (P s cmd : String)
    (hw : 2 ≤ (pyWords cmd).length)
    (hpre : ∀ q ∈ pre, matchesCommand cmd q = false)
    (hP : matchesCommand cmd P = true)
    (hs : VOLLEYBALL_SKILLS.find? (matchesCommand cmd) = some s) :
    resolveCommand (pre ++ P :: rest) cmd = some (P, s) := by
  have hne : cmd ≠ "" := by
    intro he
    rw [he] at hw
    exact absurd hw (by decide)
  have hb : (cmd == "") = false := by simpa using hne
  have hprenone : pre.find? (matchesCommand cmd) = none := by
    rw [List.find?_eq_none]
    intro x hx
    simp [hpre x hx]
  have hfp : (pre ++ P :: rest).find? (matchesCommand cmd) = some P := by
    rw [List.find?_append, hprenone, Option.none_or, List.find?_cons_of_pos _ hP]
  simp only [resolveCommand, hb, Bool.false_eq_true, if_false]
  rw [if_neg (by omega), hfp, hs]

/-- Witness for C3: on the roster ["Zed", "Jo", "Joanne"] the command
"joanne kill" matches both "Jo" and the longer "Joanne", and resolution
returns the earlier-listed "Jo". -/
theorem C3_witness :
    resolveCommand ["Zed", "Jo", "Joanne"] "joanne kill" = some ("Jo", "Kill") :=
  C3_first_match_wins ["Zed"] ["Joanne"] "Jo" "Kill" "joanne kill"
    (by decide) (by decide) (by decide) (by decide)

/-- Session state holding one earlier history entry. -/
def exHist : AppState :=
  { players := [],
    stats := create_stats_dataframe [],
    last_command := "",
    command_history := ["earlier"],
    current_team_id := none }

/-- Session state whose history already holds 10 entries. -/
def exHist10 : AppState :=
  { players := [],
    stats := create_stats_dataframe [],
    last_command := "",
    command_history := ["c1", "c2", "c3", "c4", "c5", "c6", "c7", "c8", "c9", "c10"],
    current_team_id := none }

/-- C6 fails as stated: the invocation on the empty command leaves the
history untouched instead of prepending the raw command — empty input is
rejected before the history write (app.py lines 54-55). -/
theorem C6_counterexample :
    (handle_voice_command exHist "").command_history = exHist.command_history ∧
    (handle_voice_command exHist "").command_history ≠ "" :: exHist.command_history := by
  decide

/-- C6 (amended): every invocation on a nonempty command, matched or not,
prepends the raw command to the history; the history never exceeds 10
entries, the newest entry is first, and when the history already holds 10
entries the oldest is evicted. An invocation on an empty (or non-string)
command leaves the history unchanged. -/
theorem C6_history_bound (st : AppState) (cmd : String) (h : cmd ≠ "") :
    (handle_voice_command st cmd).command_history
      = (cmd :: st.command_history).take 10 ∧
    (handle_voice_command st cmd).command_history.length ≤ 10 ∧
    (handle_voice_command st cmd).command_history.head? = some cmd ∧
    (st.command_history.length = 10 →
      (handle_voice_command st cmd).command_history
        = cmd :: st.command_history.dropLast) := by
  have hh := handle_voice_command_history st cmd h
  refine ⟨hh, ?_, ?_, ?_⟩
  · rw [hh, List.length_take]
    exact min_le_left _ _
  · rw [hh]; rfl
  · intro h10
    rw [hh, List.take_cons (by norm_num), List.dropLast_eq_take, h10]

/-- Witness for C6: an 11th command pushed onto a full 10-entry history
lands in front and evicts the oldest entry. -/
theorem C6_witness :
    (handle_voice_command exHist10 "newest").command_history
      = ("newest" :: exHist10.command_history).take 10 ∧
    (handle_voice_command exHist10 "newest").command_history.length ≤ 10 ∧
    (handle_voice_command exHist10 "newest").command_history.head? = some "newest" ∧
    (handle_voice_command exHist10 "newest").command_history
      = "newest" :: exHist10.command_history.dropLast := by
  obtain ⟨h1, h2, h3, h4⟩ := C6_history_bound exHist10 "newest" (by decide)
  exact ⟨h1, h2, h3, h4 (by decide)⟩

/-- C7: the Save button never mutates the in-memory session state — in
particular a failing bulk save leaves every sheet cell as it was, and the
failure also rolls the store back. -/
theorem C7_save_failure_preserves_ledger (st : AppState) (store : Store) (fails : Bool) :
    (saveStatsButton st store fails).1 = st ∧
    (∀ p s, ((saveStatsButton st store true).1).stats.count p s = st.stats.count p s) ∧
    (saveStatsButton st store true).2 = store := by
  cases htid : st.current_team_id with
  | none => exact ⟨by simp [saveStatsButton, htid], fun p s => by simp [saveStatsButton, htid], by simp [saveStatsButton, htid]⟩
  | some tid =>
      refine ⟨by simp [saveStatsButton, htid], fun p s => by simp [saveStatsButton, htid], ?_⟩
      simp [saveStatsButton, htid, save_current_stats]

/-- Empty pre-setup session state. -/
def blankState : AppState :=
  { players := [],
    stats := create_stats_dataframe [],
    last_command := "",
    command_history := [],
    current_team_id := none }

/-- A store holding one team (id 1) with the player "Ann" and one durable
stat row for a skill outside the fixed 13. -/
def exStore : Store :=
  { players := [{ id := 1, name := "Ann", team_id := 1 }],
    stats := [{ player_id := 1, skill_name := "Ancient Skill", count := 5 }] }

/-- The session state after loading team 1 from `exStore`: the sheet has
a column "Ancient Skill" that exists only because it was loaded from
durable data. -/
def exLoaded : AppState := load_team blankState exStore 1

/-- C8 fails as stated: after loading a sheet whose durable data carries
the column "Ancient Skill", the Reset button rebuilds the sheet as the
fresh roster-by-13-skills grid, so the previously existing cell
("Ann", "Ancient Skill") is removed — the cell set is not preserved. -/
theorem C8_counterexample :
    exLoaded.stats.hasCell "Ann" "Ancient Skill" = true ∧
    exLoaded.stats.count "Ann" "Ancient Skill" = 5 ∧
    ((resetStatsButton exLoaded exStore false).1).stats.hasCell "Ann" "Ancient Skill"
      = false := by decide

/-- C8 (amended): Reset replaces the sheet by a fresh grid whose rows are
the current roster and whose columns are exactly the 13 fixed skills,
every cell 0.  When the pre-reset sheet already had exactly that cell set
(as any sheet built by `create_stats_dataframe` does), the cell set is
preserved; a cell present only through loaded durable data, in a column
outside the 13 skills, is dropped. -/
theorem C8_reset_zeroes (st : AppState) (store : Store) (fails : Bool) :
    ((resetStatsButton st store fails).1).stats.rows = st.players ∧
    ((resetStatsButton st store fails).1).stats.cols = VOLLEYBALL_SKILLS ∧
    (∀ p s, ((resetStatsButton st store fails).1).stats.count p s = 0) ∧
    (st.stats.rows = st.players → st.stats.cols = VOLLEYBALL_SKILLS →
      ∀ p s, ((resetStatsButton st store fails).1).stats.hasCell p s
        = st.stats.hasCell p s) := by
  have hfst : (resetStatsButton st store fails).1
      = { st with stats := create_stats_dataframe st.players } := by
    cases htid : st.current_team_id with
    | none => simp [resetStatsButton, htid]
    | some tid => simp [resetStatsButton, htid]
  refine ⟨by rw [hfst]; rfl, by rw [hfst]; rfl, fun p s => by rw [hfst]; rfl, ?_⟩
  intro hr hc p s
  rw [hfst]
  simp only [Ledger.hasCell, create_stats_dataframe, hr, hc]

/-- Witness for C8 at a freshly created two-player team: reset keeps the
cell set and zeroes the cells. -/
theorem C8_witness :
    ((resetStatsButton (startTracking blankState none ["Ann", "Bo"]) exStore false).1).stats.hasCell
        "Ann" "Kill"
      = (startTracking blankState none ["Ann", "Bo"]).stats.hasCell "Ann" "Kill" ∧
    ((resetStatsButton (startTracking blankState none ["Ann", "Bo"]) exStore false).1).stats.count
        "Ann" "Kill" = 0 :=
  ⟨(C8_reset_zeroes (startTracking blankState none ["Ann", "Bo"]) exStore false).2.2.2
      (by decide) (by decide) "Ann" "Kill",
    (C8_reset_zeroes (startTracking blankState none ["Ann", "Bo"]) exStore false).2.2.1
      "Ann" "Kill"⟩

/-- C9: team creation with n distinct players builds a sheet with the
player list as rows and the 13 fixed skills as columns — n × 13 distinct
cells, one per (player, skill) pair — and every cell equal to 0. -/
theorem C9_fresh_sheet (players : List String) (hnd : players.Nodup) :
    (create_stats_dataframe players).rows = players ∧
    (create_stats_dataframe players).cols = VOLLEYBALL_SKILLS ∧
    VOLLEYBALL_SKILLS.length = 13 ∧
    (create_stats_dataframe players).cells.length = players.length * 13 ∧
    (create_stats_dataframe players).cells.Nodup ∧
    ∀ p s, (create_stats_dataframe players).count p s = 0 := by
  refine ⟨rfl, rfl, rfl, ?_, ?_, fun p s => rfl⟩
  · show (players.flatMap fun p => VOLLEYBALL_SKILLS.map fun s => (p, s)).length = _
    rw [List.length_flatMap]
    have hmap : players.map (List.length ∘ fun p => VOLLEYBALL_SKILLS.map fun s => (p, s))
        = List.replicate players.length 13 := by
      rw [← List.map_const]
      refine List.map_congr_left ?_
      intro p _
      show (VOLLEYBALL_SKILLS.map fun s => (p, s)).length = 13
      rw [List.length_map]
      rfl
    rw [hmap, List.sum_replicate, smul_eq_mul]
  · show (players.flatMap fun p => VOLLEYBALL_SKILLS.map fun s => (p, s)).Nodup
    rw [List.nodup_flatMap]
    constructor
    · intro p _
      exact (List.nodup_map_iff_inj_on (by decide)).mpr
        (fun a _ b _ hab => congrArg Prod.snd hab)
    · refine hnd.imp ?_
      intro a b hab x hxa hxb
      obtain ⟨sa, _, rfl⟩ := List.mem_map.mp hxa
      obtain ⟨sb, _, hEq⟩ := List.mem_map.mp hxb
      exact hab (congrArg Prod.fst hEq).symm

/-- Witness for C9 at the roster ["Ann", "Bo"]: exactly 26 distinct cells,
all 0. -/
theorem C9_witness :
    (create_stats_dataframe ["Ann", "Bo"]).cells.length = 26 ∧
    (create_stats_dataframe ["Ann", "Bo"]).cells.Nodup ∧
    (create_stats_dataframe ["Ann", "Bo"]).count "Ann" "Kill" = 0 := by
  obtain ⟨h1, h2, h3, h4, h5, h6⟩ := C9_fresh_sheet ["Ann", "Bo"] (by decide)
  exact ⟨h4.trans (by decide), h5, h6 "Ann" "Kill"⟩

end VolleyballStats
